import Mathlib

/-!
# Cerberus — Topology Resolution & Compose Assembly Engine

Shallow embedding of the Cerberus configuration generator (Rust) and proofs
about its spec.  Pure fragments of the Rust source are translated directly:

* `src/src/config/mod.rs` — the config data model and `Config::validate` /
  `Config::load`;
* `src/src/generators/proxy_config.rs` — `get_dependencies_for_proxy`,
  `get_file_extension`, `generate_all` (the set of rendered proxy configs);
* `src/src/generators/mod.rs` — the decision of `CerberusGenerator::generate_all`
  to emit Anubis artifacts;
* `src/src/generators/anubis/mod.rs` — `AnubisGenerator::generate`, the bot
  policy JSON document.

The `DockerComposeGenerator` module itself is absent from the source tree
(`src/src/generators/docker_compose/` holds only its tests), so the topology
construction (node materialization, Anubis-node inclusion, scaling expansion,
service classification and network allocation) is modelled from the spec;
those definitions carry a doc comment starting `Modelled from the spec:`.

Machine integers (`u8`, `u16`, `u32`) are modelled as `Nat`: none of the
embedded computations can overflow (they only compare and copy the values).
-/

namespace Cerberus

/-! ## String helpers

Rust's `str::contains(pat)` is substring containment.  We implement it on
`List Char` so that every use is executable and decidable. -/

/-- `submemList needle hay` is true iff `needle` occurs contiguously in `hay`
(substring containment on character lists). -/
def submemList (needle : List Char) : List Char → Bool
  | [] => needle.isEmpty
  | c :: t => needle.isPrefixOf (c :: t) || submemList needle t

/-- Rust `hay.contains(needle)`: substring containment on strings. -/
def containsSub (hay needle : String) : Bool :=
  submemList needle.toList hay.toList

/-- Split a character list on `'.'` (like Rust `str::split('.')`): always
returns at least one (possibly empty) part. -/
def splitDot : List Char → List (List Char)
  | [] => [[]]
  | c :: t =>
    let r := splitDot t
    if c = '.' then [] :: r
    else
      match r with
      | [] => [[c]]
      | h :: t2 => (c :: h) :: t2

/-- Decimal value of a digit list (used for IPv4 octets). -/
def digitsToNat (l : List Char) : Nat :=
  l.foldl (fun n c => n * 10 + (c.toNat - 48)) 0

/-- Rust `str::trim`: strip leading and trailing whitespace.  Implemented
on the character list so that it evaluates inside the kernel. -/
def trimChars (s : String) : List Char :=
  ((s.toList.dropWhile Char.isWhitespace).reverse.dropWhile
    Char.isWhitespace).reverse

/-! ## Config data model (src/src/config/mod.rs)

Only the fields consulted by the embedded operations are carried; the many
pass-through Docker fields (healthcheck, deploy, secrets, labels, …) are
copied verbatim into the rendered output by the Rust code and play no role
in any claim.  Note: `config/mod.rs` declares `external_port: u16` while
`proxy_config.rs` and both test modules use `Option<u16>` (the repo holds
two snapshots); we follow the `Option` form used by all the generators and
translate the validation check `external_port == 0` to `= some 0`. -/

/-- Proxy software kind (`enum ProxyType`). -/
inductive ProxyType where
  | caddy
  | nginx
  | haproxy
  | traefik
deriving DecidableEq, Repr

/-- `ProxyType::as_str`. -/
def ProxyType.asStr : ProxyType → String
  | .caddy => "caddy"
  | .nginx => "nginx"
  | .haproxy => "haproxy"
  | .traefik => "traefik"

/-- Route type for conditional routing (`enum RouteType`). -/
inductive RouteType where
  | direct
  | conditional
deriving DecidableEq, Repr

/-- Routing configuration for proxy layers (`struct RouteConfig`). -/
structure RouteConfig where
  route_type : RouteType
  domain : String
  upstream : String
  bypass_paths : List String := []
deriving DecidableEq, Repr

/-- Proxy layer configuration (`struct ProxyConfig`), restricted to the
fields the embedded logic reads. -/
structure ProxyConfig where
  name : String
  proxy_type : ProxyType
  external_port : Option Nat
  internal_port : Nat := 80
  layer : Option Nat := none
  instances : Nat := 1
  max_connections : Option Nat := none
  default_upstream : Option String := none
  routes : List RouteConfig := []
deriving DecidableEq, Repr

/-- Backend service configuration (`struct ServiceConfig`). -/
structure ServiceConfig where
  name : String
  domain : String
  upstream : String
  websocket : Bool := false
  compress : Bool := true
  max_body_size : String := "1m"
deriving DecidableEq, Repr

/-- Anubis DDoS protection configuration (`struct AnubisConfig`). -/
structure AnubisConfig where
  enabled : Bool := false
  bind : String := ":8080"
  target : String := "http://proxy-2:80"
  difficulty : Nat := 5
  metrics_bind : String := ":9090"
  image : String := "ghcr.io/techarohq/anubis:latest"
deriving DecidableEq, Repr

/-- Project-level configuration (`struct ProjectConfig`). -/
structure ProjectConfig where
  name : String
  scaling : Bool := false
deriving DecidableEq, Repr

/-- Main configuration structure (`struct Config`), restricted to the
sections the embedded logic reads. -/
structure Config where
  project : ProjectConfig
  anubis : AnubisConfig := {}
  proxies : List ProxyConfig := []
  services : List ServiceConfig := []
deriving DecidableEq, Repr

/-! ## Config validation (`Config::validate`, config/mod.rs lines 975-1035)

The Rust function walks the declarations in order and returns the first
validation error; we mirror that with `Except String Unit`, carrying the
exact message strings. -/

/-- The proxy-validation loop of `Config::validate` (`for (index, proxy) in
self.proxies.iter().enumerate()`), with the running index made explicit. -/
def validateProxiesFrom : List ProxyConfig → Nat → Except String Unit
  | [], _ => .ok ()
  | p :: rest, index =>
    if trimChars p.name = [] then
      .error ("Proxy " ++ toString index ++ " name cannot be empty")
    else if p.external_port = some 0 then
      .error ("Proxy " ++ p.name ++ " external_port must be greater than 0")
    else if p.instances = 0 then
      .error ("Proxy " ++ p.name ++ " instances must be greater than 0")
    else
      validateProxiesFrom rest (index + 1)

/-- The service-validation loop of `Config::validate`. -/
def validateServicesFrom : List ServiceConfig → Nat → Except String Unit
  | [], _ => .ok ()
  | s :: rest, index =>
    if trimChars s.name = [] then
      .error ("Service " ++ toString index ++ " name cannot be empty")
    else if trimChars s.domain = [] then
      .error ("Service " ++ s.name ++ " domain cannot be empty")
    else if trimChars s.upstream = [] then
      .error ("Service " ++ s.name ++ " upstream cannot be empty")
    else
      validateServicesFrom rest (index + 1)

/-- `Config::validate`: semantic validation beyond the TOML schema.
Checks, in order: non-empty project name, per-proxy checks, per-service
checks, and the Anubis difficulty bound (`enabled && difficulty > 10`). -/
def Config.validate (cfg : Config) : Except String Unit :=
  if trimChars cfg.project.name = [] then
    .error "Project name cannot be empty"
  else
    match validateProxiesFrom cfg.proxies 0 with
    | .error e => .error e
    | .ok () =>
      match validateServicesFrom cfg.services 0 with
      | .error e => .error e
      | .ok () =>
        if cfg.anubis.enabled = true ∧ 10 < cfg.anubis.difficulty then
          .error "Anubis difficulty must be between 1 and 10"
        else
          .ok ()

/-- `Config::load` (config/mod.rs lines 958-967), after the external file
read and TOML parse: the parsed document is validated and returned only if
validation succeeds.  File I/O and TOML decoding are external collaborators,
so the embedding takes the already-parsed `Config` as input. -/
def Config.load (cfg : Config) : Except String Config :=
  match cfg.validate with
  | .error e => .error e
  | .ok () => .ok cfg

/-! ## Proxy config generator (src/src/generators/proxy_config.rs) -/

/-- `ProxyConfigGenerator::get_dependencies_for_proxy` (proxy_config.rs
lines 364-388).  The Anubis dependency is added when Anubis is enabled and
the proxy's `default_upstream` contains the substring `"anubis"`; a
dependency on another declared proxy is added when `default_upstream`
contains that proxy's name.  Route upstreams are never consulted. -/
def get_dependencies_for_proxy (cfg : Config) (proxy : ProxyConfig) : List String :=
  (if cfg.anubis.enabled then
    match proxy.default_upstream with
    | some upstream => if containsSub upstream "anubis" then ["anubis"] else []
    | none => []
  else []) ++
  cfg.proxies.filterMap (fun other =>
    if other.name ≠ proxy.name then
      match proxy.default_upstream with
      | some upstream =>
        if containsSub upstream other.name then some other.name else none
      | none => none
    else none)

/-- `ProxyConfigGenerator::get_file_extension`. -/
def getFileExtension (proxy_type : String) : String :=
  if proxy_type = "caddy" then "Caddyfile"
  else if proxy_type = "nginx" then "nginx.conf"
  else if proxy_type = "haproxy" then "haproxy.cfg"
  else if proxy_type = "traefik" then "traefik.yml"
  else "conf"

/-- The set of proxy configuration files emitted by
`CerberusGenerator::generate_proxy_configs` (generators/mod.rs lines
117-131) and `ProxyConfigGenerator::generate_all` (proxy_config.rs lines
269-278): one file per entry of `config.proxies`, keyed by the proxy's name
with the kind-specific file name.  The rendered text itself comes from the
external template engine and carries no decision logic. -/
def generatedProxyConfigs (cfg : Config) : List (String × String) :=
  cfg.proxies.map (fun p => (p.name, getFileExtension p.proxy_type.asStr))

/-- The decision of `CerberusGenerator::generate_all` (generators/mod.rs
lines 56-60) to emit the Anubis artifacts (`anubis/botPolicy.json` and
`anubis/.env`): it depends only on `config.anubis.enabled`. -/
def anubisArtifactsGenerated (cfg : Config) : Bool :=
  cfg.anubis.enabled

/-! ## Anubis bot-policy generator (src/src/generators/anubis/mod.rs)

The generator builds one JSON document with the `json!` macro.  We model the
JSON tree with a small value type and translate the literal verbatim. -/

/-- JSON values, as produced by the `json!` literal in
`AnubisGenerator::generate`. -/
inductive Jv where
  | jstr : String → Jv
  | jnum : Nat → Jv
  | jbool : Bool → Jv
  | jarr : List Jv → Jv
  | jobj : List (String × Jv) → Jv

/-- Look up a key in a JSON object (first occurrence). -/
def jLookup : Jv → String → Option Jv
  | .jobj fields, key => fields.lookup key
  | _, _ => none

/-- Two-level lookup: `jLookup2 j k1 k2 = j[k1][k2]`. -/
def jLookup2 (j : Jv) (k1 k2 : String) : Option Jv :=
  match jLookup j k1 with
  | some v => jLookup v k2
  | none => none

/-- The constant `ALLOW` rule list of the bot policy (anubis/mod.rs lines
23-60). -/
def allowRules : List Jv :=
  [ .jobj [("path", .jstr "/favicon.ico"), ("description", .jstr "Allow favicon requests")],
    .jobj [("path", .jstr "/.well-known/*"), ("description", .jstr "Allow well-known paths for certificates, etc.")],
    .jobj [("path", .jstr "/robots.txt"), ("description", .jstr "Allow robots.txt")],
    .jobj [("user-agent", .jstr "*Googlebot*"), ("description", .jstr "Allow Google crawlers")],
    .jobj [("user-agent", .jstr "*bingbot*"), ("description", .jstr "Allow Bing crawlers")],
    .jobj [("user-agent", .jstr "*facebookexternalhit*"), ("description", .jstr "Allow Facebook link previews")],
    .jobj [("user-agent", .jstr "*Twitterbot*"), ("description", .jstr "Allow Twitter link previews")],
    .jobj [("user-agent", .jstr "*LinkedInBot*"), ("description", .jstr "Allow LinkedIn link previews")],
    .jobj [("user-agent", .jstr "*Slackbot*"), ("description", .jstr "Allow Slack link previews")] ]

/-- The constant `CHALLENGE` rule list of the bot policy (anubis/mod.rs
lines 61-90). -/
def challengeRules : List Jv :=
  [ .jobj [("user-agent", .jstr "Mozilla*"), ("description", .jstr "Challenge typical browser user agents")],
    .jobj [("user-agent", .jstr "*Chrome*"), ("description", .jstr "Challenge Chrome browsers")],
    .jobj [("user-agent", .jstr "*Firefox*"), ("description", .jstr "Challenge Firefox browsers")],
    .jobj [("user-agent", .jstr "*Safari*"), ("description", .jstr "Challenge Safari browsers")],
    .jobj [("user-agent", .jstr "*Edge*"), ("description", .jstr "Challenge Edge browsers")],
    .jobj [("path", .jstr "/*"),
           ("rate_limit", .jobj [("requests_per_minute", .jnum 60), ("burst", .jnum 10)]),
           ("description", .jstr "Rate limit all paths")] ]

/-- The constant `BLOCK` rule list of the bot policy (anubis/mod.rs lines
91-128). -/
def blockRules : List Jv :=
  [ .jobj [("user-agent", .jstr "*bot*"), ("description", .jstr "Block generic bots")],
    .jobj [("user-agent", .jstr "*crawler*"), ("description", .jstr "Block generic crawlers")],
    .jobj [("user-agent", .jstr "*scraper*"), ("description", .jstr "Block scrapers")],
    .jobj [("user-agent", .jstr "*wget*"), ("description", .jstr "Block wget")],
    .jobj [("user-agent", .jstr "*curl*"), ("description", .jstr "Block curl")],
    .jobj [("user-agent", .jstr "*python*"), ("description", .jstr "Block Python requests")],
    .jobj [("path", .jstr "/admin*"), ("description", .jstr "Block admin paths")],
    .jobj [("path", .jstr "/.env*"), ("description", .jstr "Block environment files")],
    .jobj [("path", .jstr "/wp-*"), ("description", .jstr "Block WordPress paths")] ]

/-- The bot-policy JSON document built by `AnubisGenerator::generate`
(anubis/mod.rs lines 20-147): three constant rule sections plus a `config`
section whose `difficulty` copies `config.anubis.difficulty`, and a
`metadata` section recording the project name and the enabled flag. -/
def botPolicy (cfg : Config) : Jv :=
  .jobj
    [ ("ALLOW", .jarr allowRules),
      ("CHALLENGE", .jarr challengeRules),
      ("BLOCK", .jarr blockRules),
      ("config", .jobj
        [ ("difficulty", .jnum cfg.anubis.difficulty),
          ("challenge_ttl", .jnum 3600),
          ("rate_limit_window", .jnum 60),
          ("max_challenge_attempts", .jnum 3),
          ("javascript_challenge", .jbool true),
          ("proof_of_work", .jbool true) ]),
      ("metadata", .jobj
        [ ("generated_by", .jstr "cerberus-rust"),
          ("version", .jstr "1.0.0"),
          ("project_name", .jstr cfg.project.name),
          ("anubis_enabled", .jbool cfg.anubis.enabled) ]) ]

/-- `AnubisGenerator::generate`: builds the bot policy unconditionally (no
check of `enabled` or of the difficulty range) and returns it as `Ok`; the
only fallible step in the Rust code is `serde_json::to_string_pretty`,
which cannot fail on this tree and is external pretty-printing. -/
def anubisGenerate (cfg : Config) : Except String Jv :=
  .ok (botPolicy cfg)

/-! ## Topology resolution and compose assembly

Modelled from the spec: the `DockerComposeGenerator` module is missing from
the source tree (`src/src/generators/docker_compose/` contains only its
tests), so the definitions in this section follow spec sections 4.1-4.4,
with the constants (images, subnets, volume names) fixed by the surviving
tests in `docker_compose/tests.rs`. -/

/-- Modelled from the spec: the closed eligibility table of section 4.1 /
9 — the DDoS-aware proxy kind, i.e. the kind that only materializes when
Anubis is enabled.  Per the tests, `nginx` is the sole DDoS-aware kind. -/
def ddosAware : ProxyType → Bool
  | .nginx => true
  | _ => false

/-- Modelled from the spec: proxy eligibility (section 4.1) — DDoS-aware
kinds materialize only when Anubis is enabled; all other kinds always
materialize. -/
def materializes (cfg : Config) (p : ProxyConfig) : Bool :=
  !ddosAware p.proxy_type || cfg.anubis.enabled

/-- Modelled from the spec: Anubis-node inclusion (section 4.2) — the
Anubis node is included iff `anubis.enabled` and at least one eligible
DDoS-aware proxy kind is materialized. -/
def anubisPresent (cfg : Config) : Bool :=
  cfg.anubis.enabled &&
    cfg.proxies.any (fun p => ddosAware p.proxy_type && materializes cfg p)

/-- Modelled from the spec: the container image per proxy kind, fixed by
the docker_compose tests. -/
def imageFor : ProxyType → String
  | .caddy => "caddy:alpine"
  | .nginx => "nginx:alpine"
  | .haproxy => "haproxy:alpine"
  | .traefik => "traefik:v3.0"

/-- Kind of a resolved node (spec section 3, `ResolvedNode`). -/
inductive NodeKind where
  | proxyReplica
  | anubis
  | backendService
deriving DecidableEq, Repr

/-- Modelled from the spec: a fully resolved deployable unit (spec section
3, `ResolvedNode`): kind, name, network segment, dependency set and the
render data the claims talk about. -/
structure ResolvedNode where
  kind : NodeKind
  name : String
  image : String
  ports : List String
  internalPort : Nat
  environment : List String
  dependsOn : List String
  segment : String
  ptype : Option ProxyType := none
deriving DecidableEq, Repr

/-- Modelled from the spec: the host-port mapping carried by a node with an
external port (`"p:p"`), empty when no external port is declared. -/
def externalPortMapping : Option Nat → List String
  | some port => [toString port ++ ":" ++ toString port]
  | none => []

/-- Modelled from the spec: base render environment of a proxy node, fixed
by `test_environment_variables` (`PROXY_LAYER` and `MAX_CONNECTIONS`, the
latter defaulting to 1024). -/
def proxyBaseEnv (p : ProxyConfig) : List String :=
  [ "PROXY_LAYER=" ++ toString (p.layer.getD 1),
    "MAX_CONNECTIONS=" ++ toString (p.max_connections.getD 1024) ]

/-- Modelled from the spec: segment assignment (section 4.4) — front
segment for layer-1 nodes and nodes with an external port, back segment for
everything else. -/
def segmentFor (layer : Nat) (external_port : Option Nat) : String :=
  if layer = 1 ∨ external_port.isSome then "front-net" else "back-net"

/-- Modelled from the spec: scaling expansion (section 4.3).  Scaling is
honored only when `project.scaling` is true; the first instance keeps the
declared name and the external port mapping; instances 2..N are named
`{base}-{index}`, carry no external port, share the internal port and all
other render data, and are tagged `INSTANCE_ID={index}`.  All replicas
inherit the dependency edges computed for the base node. -/
def expandProxy (cfg : Config) (p : ProxyConfig) : List ResolvedNode :=
  let deps := get_dependencies_for_proxy cfg p
  let n := if cfg.project.scaling then p.instances else 1
  let layer := p.layer.getD 1
  let base : ResolvedNode :=
    { kind := .proxyReplica
      name := p.name
      image := imageFor p.proxy_type
      ports := externalPortMapping p.external_port
      internalPort := p.internal_port
      environment := proxyBaseEnv p
      dependsOn := deps
      segment := segmentFor layer p.external_port
      ptype := some p.proxy_type }
  base :: (List.range (n - 1)).map (fun i =>
    { base with
      name := p.name ++ "-" ++ toString (i + 2)
      ports := []
      environment := proxyBaseEnv p ++ ["INSTANCE_ID=" ++ toString (i + 2)]
      segment := segmentFor layer none })

/-- Modelled from the spec: the materialized proxy with the
highest-numbered layer (section 4.2 edge rule 3 picks "the back layer
Anubis forwards into"); first declaration wins on ties. -/
def highestLayerProxy (ps : List ProxyConfig) : Option ProxyConfig :=
  ps.foldl (fun acc p =>
    match acc with
    | none => some p
    | some q => if q.layer.getD 1 < p.layer.getD 1 then some p else some q) none

/-- Modelled from the spec: the Anubis node (section 4.2).  When more than
one proxy layer exists among the materialized proxies, Anubis depends on
the highest-numbered layer proxy; the environment mirrors the compose
tests (`BIND`, `DIFFICULTY`, `TARGET`, `METRICS_BIND`). -/
def anubisNode (cfg : Config) : ResolvedNode :=
  let mats := cfg.proxies.filter (fun p => materializes cfg p)
  let layers := (mats.map (fun p => p.layer.getD 1)).eraseDups
  { kind := .anubis
    name := "anubis"
    image := cfg.anubis.image
    ports := []
    internalPort := 8080
    environment :=
      [ "BIND=" ++ cfg.anubis.bind,
        "DIFFICULTY=" ++ toString cfg.anubis.difficulty,
        "TARGET=" ++ cfg.anubis.target,
        "METRICS_BIND=" ++ cfg.anubis.metrics_bind ]
    dependsOn :=
      if 1 < layers.length then
        match highestLayerProxy mats with
        | some p => [p.name]
        | none => []
      else []
    segment := "back-net" }

/-- Modelled from the spec: host portion of an upstream string (section
4.1): strip an `http://` or `https://` scheme, then take everything up to
the first `':'` or `'/'`. -/
def hostOf (upstream : String) : List Char :=
  let chars := upstream.toList
  let rest :=
    if ("http://".toList).isPrefixOf chars then chars.drop 7
    else if ("https://".toList).isPrefixOf chars then chars.drop 8
    else chars
  rest.takeWhile (fun c => c ≠ ':' ∧ c ≠ '/')

/-- Modelled from the spec: "the host portion parses as a literal IP
address" (section 4.1), i.e. Rust `host.parse::<IpAddr>().is_ok()` for the
dotted-quad IPv4 form: four dot-separated decimal octets, each 1-3 digits,
value at most 255, no leading zeros. -/
def isIpLiteral (host : List Char) : Bool :=
  let parts := splitDot host
  parts.length = 4 && parts.all (fun part =>
    !part.isEmpty && part.length ≤ 3 && part.all Char.isDigit &&
    digitsToNat part ≤ 255 && (part.head? ≠ some '0' || part.length = 1))

/-- Modelled from the spec: backend-service classification (section 4.1) —
an upstream whose host is a literal IP address is external and gets no
container; otherwise a container with the generic runtime image
(`alpine:latest`, per the tests) is synthesized for the service. -/
def serviceNode (s : ServiceConfig) : Option ResolvedNode :=
  if isIpLiteral (hostOf s.upstream) then none
  else some
    { kind := .backendService
      name := s.name
      image := "alpine:latest"
      ports := []
      internalPort := 0
      environment := []
      dependsOn := []
      segment := "back-net" }

/-- A named network segment of the compose descriptor: compose key, display
name, driver and fixed address block. -/
structure NetworkDef where
  key : String
  displayName : String
  driver : String
  subnet : String
deriving DecidableEq, Repr

/-- Modelled from the spec: the Topology (spec section 3) — the set of
resolved nodes plus the network segment definitions and the volume set. -/
structure Topology where
  nodes : List ResolvedNode
  networks : List NetworkDef
  volumes : List String
deriving DecidableEq, Repr

/-- Modelled from the spec: `DockerComposeGenerator::generate`, at the
topology level — materialized proxies expanded by scaling, the Anubis node
when present, one backend container per internal service, the two fixed
network segments (front `10.100.0.0/16` and back `10.101.0.0/16`, per
`test_networks_configuration`) and the fixed conventional volume set (per
`test_volumes_configuration`). -/
def generateTopology (cfg : Config) : Topology :=
  { nodes :=
      ((cfg.proxies.filter (fun p => materializes cfg p)).map
          (expandProxy cfg)).flatten
        ++ (if anubisPresent cfg then [anubisNode cfg] else [])
        ++ cfg.services.filterMap serviceNode
    networks :=
      [ ⟨"front-net", cfg.project.name ++ "-front", "bridge", "10.100.0.0/16"⟩,
        ⟨"back-net", cfg.project.name ++ "-back", "bridge", "10.101.0.0/16"⟩ ]
    volumes := ["postgres_data", "redis_data", "nginx_logs"] }

/-! ## Helper lemmas -/

/-- Every node produced by scaling expansion is a proxy replica. -/
theorem kind_of_mem_expandProxy {cfg : Config} {p : ProxyConfig}
    {n : ResolvedNode} (h : n ∈ expandProxy cfg p) :
    n.kind = NodeKind.proxyReplica := by
  simp only [expandProxy, List.mem_cons, List.mem_map] at h
  rcases h with rfl | ⟨i, _, rfl⟩ <;> rfl

/-- Every node produced by scaling expansion records its proxy kind. -/
theorem ptype_of_mem_expandProxy {cfg : Config} {p : ProxyConfig}
    {n : ResolvedNode} (h : n ∈ expandProxy cfg p) :
    n.ptype = some p.proxy_type := by
  simp only [expandProxy, List.mem_cons, List.mem_map] at h
  rcases h with rfl | ⟨i, _, rfl⟩ <;> rfl

/-- Every node synthesized for a backend service has kind
`backendService`. -/
theorem kind_of_mem_serviceNodes {ss : List ServiceConfig}
    {n : ResolvedNode} (h : n ∈ ss.filterMap serviceNode) :
    n.kind = NodeKind.backendService := by
  rcases List.mem_filterMap.mp h with ⟨s, _, hs⟩
  unfold serviceNode at hs
  split at hs
  · cases hs
  · cases hs; rfl

/-- Every node synthesized for a backend service carries no proxy kind. -/
theorem ptype_of_mem_serviceNodes {ss : List ServiceConfig}
    {n : ResolvedNode} (h : n ∈ ss.filterMap serviceNode) :
    n.ptype = none := by
  rcases List.mem_filterMap.mp h with ⟨s, _, hs⟩
  unfold serviceNode at hs
  split at hs
  · cases hs
  · cases hs; rfl

/-- Membership in the resolved node set, split by origin: scaling-expanded
materialized proxies, the optional Anubis node, and backend services. -/
theorem mem_topologyNodes_iff {cfg : Config} {n : ResolvedNode} :
    n ∈ (generateTopology cfg).nodes ↔
      (∃ p ∈ cfg.proxies, materializes cfg p = true ∧ n ∈ expandProxy cfg p)
      ∨ (anubisPresent cfg = true ∧ n = anubisNode cfg)
      ∨ n ∈ cfg.services.filterMap serviceNode := by
  simp only [generateTopology, List.mem_append, List.mem_flatten,
    List.mem_map, List.mem_filter]
  constructor
  · rintro ((⟨l, ⟨p, ⟨hp, hm⟩, rfl⟩, hn⟩ | hn) | hn)
    · exact Or.inl ⟨p, hp, hm, hn⟩
    · by_cases hA : anubisPresent cfg = true
      · simp only [hA, if_true, List.mem_singleton] at hn
        exact Or.inr (Or.inl ⟨hA, hn⟩)
      · simp only [Bool.not_eq_true] at hA
        simp [hA] at hn
    · exact Or.inr (Or.inr hn)
  · rintro (⟨p, hp, hm, hn⟩ | ⟨hA, rfl⟩ | hn)
    · exact Or.inl (Or.inl ⟨expandProxy cfg p, ⟨p, ⟨hp, hm⟩, rfl⟩, hn⟩)
    · exact Or.inl (Or.inr (by simp [hA]))
    · exact Or.inr hn

/-- `anubisPresent` unfolded to a proposition. -/
theorem anubisPresent_iff {cfg : Config} :
    anubisPresent cfg = true ↔
      cfg.anubis.enabled = true ∧
        ∃ p ∈ cfg.proxies,
          ddosAware p.proxy_type = true ∧ materializes cfg p = true := by
  simp [anubisPresent, List.any_eq_true, Bool.and_eq_true]

/-! ## C10 — Anubis bot-policy generation -/

/-- C10: for every config — whether Anubis is enabled or not and whatever
its difficulty — `AnubisGenerator::generate` succeeds, the generated
document's `config.difficulty` equals `anubis.difficulty` verbatim,
`metadata.project_name` equals the project name, `metadata.anubis_enabled`
records the enabled flag, and the ALLOW/CHALLENGE/BLOCK rule sections are
the fixed constant lists. -/
theorem anubis_policy_projection (cfg : Config) :
    anubisGenerate cfg = Except.ok (botPolicy cfg) ∧
    jLookup2 (botPolicy cfg) "config" "difficulty"
      = some (Jv.jnum cfg.anubis.difficulty) ∧
    jLookup2 (botPolicy cfg) "metadata" "project_name"
      = some (Jv.jstr cfg.project.name) ∧
    jLookup2 (botPolicy cfg) "metadata" "anubis_enabled"
      = some (Jv.jbool cfg.anubis.enabled) ∧
    jLookup (botPolicy cfg) "ALLOW" = some (Jv.jarr allowRules) ∧
    jLookup (botPolicy cfg) "CHALLENGE" = some (Jv.jarr challengeRules) ∧
    jLookup (botPolicy cfg) "BLOCK" = some (Jv.jarr blockRules) := by
  refine ⟨rfl, ?_, ?_, ?_, ?_, ?_, ?_⟩ <;> rfl

/-! ## C5 — Anubis difficulty validation -/

/-- A config with Anubis enabled and difficulty `0` that is otherwise
fully valid. -/
def anubisZeroDifficultyCfg : Config :=
  { project := { name := "acme" }
    anubis := { enabled := true, difficulty := 0 }
    proxies := [{ name := "edge", proxy_type := .caddy, external_port := some 80 }]
    services := [] }

/-- The spec's own example config: Anubis enabled with difficulty `15`. -/
def anubisFifteenDifficultyCfg : Config :=
  { project := { name := "acme" }
    anubis := { enabled := true, difficulty := 15 }
    proxies := [{ name := "edge", proxy_type := .caddy, external_port := some 80 }]
    services := [] }

/-- C5 (code bug): `Config::validate` only rejects `difficulty > 10`, so a
config with Anubis enabled and difficulty `0` — outside the documented
`[1,10]` range that the error message itself states — passes validation,
while difficulty `15` is rejected as the claim says. -/
theorem anubis_difficulty_lower_bound_unchecked :
    anubisZeroDifficultyCfg.validate = Except.ok ()
    ∧ anubisZeroDifficultyCfg.anubis.enabled = true
    ∧ anubisZeroDifficultyCfg.anubis.difficulty = 0
    ∧ anubisFifteenDifficultyCfg.validate
        = Except.error "Anubis difficulty must be between 1 and 10" := by
  refine ⟨?_, rfl, rfl, ?_⟩ <;> rfl

/-! ## C7 — deterministic generation and fixed address blocks -/

/-- C7: compose generation is a pure function (equal configs give
identical topologies), and the two network segments' address blocks and
keys are fixed constants, independent of the config — in particular of the
project name. -/
theorem network_blocks_fixed_and_deterministic (cfg : Config) :
    (generateTopology cfg).networks.map NetworkDef.subnet
        = ["10.100.0.0/16", "10.101.0.0/16"]
    ∧ (generateTopology cfg).networks.map NetworkDef.key
        = ["front-net", "back-net"]
    ∧ ∀ cfg2 : Config, cfg = cfg2 → generateTopology cfg = generateTopology cfg2 := by
  exact ⟨rfl, rfl, fun _ h => by rw [h]⟩

/-- Witness for C7 at a concrete config. -/
theorem network_blocks_fixed_and_deterministic_witness :
    (generateTopology anubisZeroDifficultyCfg).networks.map NetworkDef.subnet
        = ["10.100.0.0/16", "10.101.0.0/16"]
    ∧ generateTopology anubisZeroDifficultyCfg
        = generateTopology anubisZeroDifficultyCfg :=
  ⟨(network_blocks_fixed_and_deterministic anubisZeroDifficultyCfg).1,
   (network_blocks_fixed_and_deterministic anubisZeroDifficultyCfg).2.2
     anubisZeroDifficultyCfg rfl⟩

/-! ## C1 — Anubis node inclusion and artifact generation -/

/-- The first `expandProxy` entry is the base node, keeping the declared
name, the external port mapping and the computed dependency set. -/
theorem expandProxy_base (cfg : Config) (p : ProxyConfig) :
    ∃ rest, expandProxy cfg p =
      { kind := .proxyReplica
        name := p.name
        image := imageFor p.proxy_type
        ports := externalPortMapping p.external_port
        internalPort := p.internal_port
        environment := proxyBaseEnv p
        dependsOn := get_dependencies_for_proxy cfg p
        segment := segmentFor (p.layer.getD 1) p.external_port
        ptype := some p.proxy_type } :: rest :=
  ⟨_, rfl⟩

/-- A config with Anubis enabled whose only proxy is `caddy` (no
DDoS-aware kind declared at all). -/
def anubisEnabledNoNginxCfg : Config :=
  { project := { name := "acme" }
    anubis := { enabled := true }
    proxies := [{ name := "front", proxy_type := .caddy, external_port := some 80 }]
    services := [] }

/-- C1 counterexample: with Anubis enabled but no DDoS-aware (nginx) proxy
declared, no Anubis node exists in the topology, yet
`CerberusGenerator::generate_all` still generates the Anubis artifacts
(its check is `config.anubis.enabled` alone) — so "included in the
topology (and its artifacts are generated) iff enabled AND an eligible
DDoS-aware proxy is materialized" fails on the artifact half. -/
theorem anubis_artifacts_without_node_cex :
    anubisArtifactsGenerated anubisEnabledNoNginxCfg = true
    ∧ (∀ n ∈ (generateTopology anubisEnabledNoNginxCfg).nodes,
        n.kind ≠ NodeKind.anubis)
    ∧ ¬(anubisEnabledNoNginxCfg.anubis.enabled = true
        ∧ ∃ p ∈ anubisEnabledNoNginxCfg.proxies,
            ddosAware p.proxy_type = true
            ∧ materializes anubisEnabledNoNginxCfg p = true) := by
  refine ⟨rfl, ?_, ?_⟩ <;> decide

/-- C1 as amended: the Anubis node is in the resolved topology iff Anubis
is enabled and at least one eligible DDoS-aware proxy is materialized;
the Anubis artifacts, however, are generated iff `anubis.enabled` alone,
regardless of the declared proxy kinds. -/
theorem anubis_node_iff_enabled_and_ddos_proxy (cfg : Config) :
    ((∃ n ∈ (generateTopology cfg).nodes, n.kind = NodeKind.anubis) ↔
      (cfg.anubis.enabled = true ∧ ∃ p ∈ cfg.proxies,
        ddosAware p.proxy_type = true ∧ materializes cfg p = true))
    ∧ (anubisArtifactsGenerated cfg = true ↔ cfg.anubis.enabled = true) := by
  constructor
  · constructor
    · rintro ⟨n, hn, hk⟩
      rcases mem_topologyNodes_iff.mp hn with ⟨p, _, _, hmem⟩ | ⟨hA, rfl⟩ | hsv
      · rw [kind_of_mem_expandProxy hmem] at hk; cases hk
      · exact anubisPresent_iff.mp hA
      · rw [kind_of_mem_serviceNodes hsv] at hk; cases hk
    · intro h
      refine ⟨anubisNode cfg, ?_, rfl⟩
      exact mem_topologyNodes_iff.mpr
        (Or.inr (Or.inl ⟨anubisPresent_iff.mpr h, rfl⟩))
  · exact Iff.rfl

/-! ## C2 — suppression of DDoS-aware proxies, materialization of the rest -/

/-- C2: when `anubis.enabled = false` the topology contains no Anubis node
and no node of the DDoS-aware (nginx) kind, however many such proxies are
declared; and proxies of every other kind always materialize — a base
node with the declared name exists — regardless of the Anubis flag. -/
theorem ddos_suppressed_others_always_materialize (cfg : Config) :
    (cfg.anubis.enabled = false →
      (∀ n ∈ (generateTopology cfg).nodes, n.kind ≠ NodeKind.anubis)
      ∧ (∀ n ∈ (generateTopology cfg).nodes, n.ptype ≠ some ProxyType.nginx))
    ∧ (∀ p ∈ cfg.proxies, ddosAware p.proxy_type = false →
        ∃ n ∈ (generateTopology cfg).nodes,
          n.kind = NodeKind.proxyReplica ∧ n.name = p.name
          ∧ n.ptype = some p.proxy_type) := by
  constructor
  · intro hoff
    have hA : anubisPresent cfg = false := by
      simp [anubisPresent, hoff]
    constructor
    · intro n hn hk
      rcases mem_topologyNodes_iff.mp hn with ⟨p, _, _, hmem⟩ | ⟨hA', _⟩ | hsv
      · rw [kind_of_mem_expandProxy hmem] at hk; cases hk
      · rw [hA] at hA'; cases hA'
      · rw [kind_of_mem_serviceNodes hsv] at hk; cases hk
    · intro n hn hp
      rcases mem_topologyNodes_iff.mp hn with ⟨p, _, hmat, hmem⟩ | ⟨hA', _⟩ | hsv
      · rw [ptype_of_mem_expandProxy hmem] at hp
        have hng : p.proxy_type = ProxyType.nginx := by
          injection hp
        rw [materializes, hng, hoff] at hmat
        cases hmat
      · rw [hA] at hA'; cases hA'
      · rw [ptype_of_mem_serviceNodes hsv] at hp; cases hp
  · intro p hp hplain
    have hmat : materializes cfg p = true := by
      simp [materializes, hplain]
    obtain ⟨rest, hexp⟩ := expandProxy_base cfg p
    refine ⟨_, mem_topologyNodes_iff.mpr
      (Or.inl ⟨p, hp, hmat, by rw [hexp]; exact List.mem_cons_self _ _⟩),
      rfl, rfl, rfl⟩

/-- Witness for C2 at a concrete config: Anubis disabled, one nginx proxy
(suppressed) and one caddy proxy (materialized). -/
def mixedAnubisOffCfg : Config :=
  { project := { name := "acme" }
    anubis := { enabled := false }
    proxies :=
      [ { name := "guard", proxy_type := .nginx, external_port := some 80 },
        { name := "plain", proxy_type := .caddy, external_port := some 81 } ]
    services := [] }

/-- Witness for C2: the theorem applied at `mixedAnubisOffCfg` with its
hypotheses discharged on the caddy proxy. -/
theorem ddos_suppressed_others_always_materialize_witness :
    mixedAnubisOffCfg.anubis.enabled = false
    ∧ ddosAware ProxyType.caddy = false
    ∧ ((∀ n ∈ (generateTopology mixedAnubisOffCfg).nodes,
          n.kind ≠ NodeKind.anubis)
       ∧ (∀ n ∈ (generateTopology mixedAnubisOffCfg).nodes,
          n.ptype ≠ some ProxyType.nginx))
    ∧ (∃ n ∈ (generateTopology mixedAnubisOffCfg).nodes,
        n.kind = NodeKind.proxyReplica ∧ n.name = "plain"
        ∧ n.ptype = some ProxyType.caddy) :=
  ⟨rfl, rfl,
   (ddos_suppressed_others_always_materialize mixedAnubisOffCfg).1 rfl,
   (ddos_suppressed_others_always_materialize mixedAnubisOffCfg).2
     { name := "plain", proxy_type := .caddy, external_port := some 81 }
     (by decide) rfl⟩

/-! ## C9 — proxy config files versus materialized proxies -/

/-- A config with a single nginx proxy and Anubis disabled: the proxy is
suppressed from the topology. -/
def nginxAnubisOffCfg : Config :=
  { project := { name := "acme" }
    anubis := { enabled := false }
    proxies := [{ name := "test-proxy", proxy_type := .nginx, external_port := some 80 }]
    services := [] }

/-- C9 counterexample: with one nginx proxy and Anubis disabled the
resolved topology is empty — the proxy is suppressed — yet
`generate_proxy_configs` still renders a configuration file for it, so
"one configuration file per materialized proxy node, none for a
suppressed proxy" fails. -/
theorem proxy_config_for_suppressed_proxy_cex :
    generatedProxyConfigs nginxAnubisOffCfg = [("test-proxy", "nginx.conf")]
    ∧ (generateTopology nginxAnubisOffCfg).nodes = [] := by
  exact ⟨rfl, rfl⟩

/-- C9 as amended: a configuration file is rendered for every *declared*
proxy — the generator iterates `config.proxies` directly — regardless of
whether the proxy materializes in the topology. -/
theorem proxy_config_per_declared_proxy (cfg : Config) :
    (generatedProxyConfigs cfg).map Prod.fst = cfg.proxies.map ProxyConfig.name
    ∧ ∀ p ∈ cfg.proxies,
        (p.name, getFileExtension p.proxy_type.asStr) ∈ generatedProxyConfigs cfg := by
  constructor
  · simp [generatedProxyConfigs]
  · intro p hp
    exact List.mem_map.mpr ⟨p, hp, rfl⟩

/-- Witness for C9's amended theorem at the suppressed-nginx config. -/
theorem proxy_config_per_declared_proxy_witness :
    ({ name := "test-proxy", proxy_type := .nginx,
       external_port := some 80 } : ProxyConfig) ∈ nginxAnubisOffCfg.proxies
    ∧ ("test-proxy", "nginx.conf") ∈ generatedProxyConfigs nginxAnubisOffCfg :=
  ⟨by decide,
   (proxy_config_per_declared_proxy nginxAnubisOffCfg).2
     { name := "test-proxy", proxy_type := .nginx, external_port := some 80 }
     (by decide)⟩

/-! ## C3 — scaling expansion -/

/-- C3: under `scaling = true`, a proxy with `instances = N > 1` expands to
exactly N nodes named `base, base-2, …, base-N`; only the base node
carries the external port mapping; every replica keeps the internal port,
image and dependency edges of the base and instance `i` (2..N) is tagged
`INSTANCE_ID=i`; and all N nodes are part of the resolved topology. -/
theorem scaling_expansion (cfg : Config) (p : ProxyConfig)
    (hs : cfg.project.scaling = true) (hp : p ∈ cfg.proxies)
    (hmat : materializes cfg p = true) (hN : 1 < p.instances) :
    (expandProxy cfg p).length = p.instances
    ∧ (expandProxy cfg p).map ResolvedNode.name
        = p.name :: (List.range (p.instances - 1)).map
            (fun i => p.name ++ "-" ++ toString (i + 2))
    ∧ (expandProxy cfg p).map ResolvedNode.ports
        = externalPortMapping p.external_port
            :: (List.range (p.instances - 1)).map (fun _ => [])
    ∧ (expandProxy cfg p).map ResolvedNode.environment
        = proxyBaseEnv p :: (List.range (p.instances - 1)).map
            (fun i => proxyBaseEnv p ++ ["INSTANCE_ID=" ++ toString (i + 2)])
    ∧ (∀ n ∈ expandProxy cfg p,
        n.internalPort = p.internal_port
        ∧ n.dependsOn = get_dependencies_for_proxy cfg p
        ∧ n.image = imageFor p.proxy_type)
    ∧ (∀ n ∈ expandProxy cfg p, n ∈ (generateTopology cfg).nodes) := by
  refine ⟨?_, ?_, ?_, ?_, ?_, ?_⟩
  · simp [expandProxy, hs]
    omega
  · simp [expandProxy, hs, Function.comp]
  · simp [expandProxy, hs, Function.comp_def, List.map_const']
  · simp [expandProxy, hs, Function.comp]
  · intro n hn
    simp only [expandProxy, hs, if_true, List.mem_cons, List.mem_map] at hn
    rcases hn with rfl | ⟨i, _, rfl⟩ <;> exact ⟨rfl, rfl, rfl⟩
  · intro n hn
    exact mem_topologyNodes_iff.mpr (Or.inl ⟨p, hp, hmat, hn⟩)

/-- A scaling-enabled config with one caddy proxy declaring three
instances. -/
def scalingCfg : Config :=
  { project := { name := "acme", scaling := true }
    anubis := {}
    proxies := [{ name := "web", proxy_type := .caddy,
                  external_port := some 80, instances := 3 }]
    services := [] }

/-- The scaled proxy declaration of `scalingCfg`. -/
def scalingProxy : ProxyConfig :=
  { name := "web", proxy_type := .caddy, external_port := some 80,
    instances := 3 }

/-- Witness for C3 at `instances = 3`. -/
theorem scaling_expansion_witness :
    scalingCfg.project.scaling = true
    ∧ scalingProxy ∈ scalingCfg.proxies
    ∧ materializes scalingCfg scalingProxy = true
    ∧ 1 < scalingProxy.instances
    ∧ (expandProxy scalingCfg scalingProxy).length = scalingProxy.instances
    ∧ (expandProxy scalingCfg scalingProxy).map ResolvedNode.name
        = scalingProxy.name :: (List.range (scalingProxy.instances - 1)).map
            (fun i => scalingProxy.name ++ "-" ++ toString (i + 2)) :=
  ⟨rfl, by decide, rfl, by decide,
   (scaling_expansion scalingCfg scalingProxy rfl (by decide) rfl
      (by decide)).1,
   (scaling_expansion scalingCfg scalingProxy rfl (by decide) rfl
      (by decide)).2.1⟩

/-! ## C4 — dependency-edge computation -/

/-- A proxy whose only reference to Anubis sits in a route upstream, not
in the default upstream. -/
def anubisRoutedProxy : ProxyConfig :=
  { name := "edge", proxy_type := .nginx, external_port := some 80
    default_upstream := none
    routes := [{ route_type := .direct, domain := "example.com",
                 upstream := "http://anubis:8080" }] }

/-- Config holding `anubisRoutedProxy` with Anubis enabled. -/
def anubisRoutedCfg : Config :=
  { project := { name := "acme" }
    anubis := { enabled := true }
    proxies := [anubisRoutedProxy]
    services := [] }

/-- C4 counterexample: Anubis is enabled and a route upstream textually
references the Anubis bind target (`http://anubis:8080` contains
`anubis:8080`), yet the computed dependency set is empty —
`get_dependencies_for_proxy` never consults route upstreams, only
`default_upstream`. -/
theorem route_upstream_ignored_cex :
    get_dependencies_for_proxy anubisRoutedCfg anubisRoutedProxy = []
    ∧ anubisRoutedCfg.anubis.enabled = true
    ∧ ∃ r ∈ anubisRoutedProxy.routes,
        containsSub r.upstream
          ("anubis" ++ anubisRoutedCfg.anubis.bind) = true := by
  refine ⟨rfl, rfl, ?_⟩
  decide

/-- C4 as amended: the dependency set contains `"anubis"` exactly when
Anubis is enabled and the *default* upstream contains the substring
`"anubis"` (route upstreams are never consulted, and the configured
target plays no role), and contains another declared proxy's name exactly
when the default upstream contains that name and it differs from the
proxy's own name. -/
theorem dependency_membership (cfg : Config) (p : ProxyConfig) (d : String) :
    d ∈ get_dependencies_for_proxy cfg p ↔
      (d = "anubis" ∧ cfg.anubis.enabled = true
        ∧ ∃ u, p.default_upstream = some u ∧ containsSub u "anubis" = true)
      ∨ (∃ other ∈ cfg.proxies, other.name = d ∧ other.name ≠ p.name
          ∧ ∃ u, p.default_upstream = some u
              ∧ containsSub u other.name = true) := by
  unfold get_dependencies_for_proxy
  rw [List.mem_append]
  apply or_congr
  · cases henb : cfg.anubis.enabled
    · simp
    · cases hdu : p.default_upstream with
      | none => simp
      | some u =>
        by_cases hc : containsSub u "anubis" = true
        · simp [hc]
        · simp [Bool.not_eq_true] at hc
          simp [hc]
  · rw [List.mem_filterMap]
    constructor
    · rintro ⟨other, ho, hf⟩
      by_cases hne : other.name = p.name
      · simp [hne] at hf
      · rw [if_pos hne] at hf
        cases hdu : p.default_upstream with
        | none => rw [hdu] at hf; simp at hf
        | some u =>
          rw [hdu] at hf
          by_cases hc : containsSub u other.name = true
          · simp only [hc, if_true] at hf
            injection hf with hname
            exact ⟨other, ho, hname, hne, u, rfl, hc⟩
          · simp [hc] at hf
    · rintro ⟨other, ho, hname, hne, u, hdu, hc⟩
      refine ⟨other, ho, ?_⟩
      simp [hne, hdu, hc, hname]
      exact ⟨hname ▸ hne, hname ▸ hc⟩

/-! ## C6 — backend service classification -/

/-- C6: the backend containers of the topology are exactly the services
whose upstream host is not a literal IP address; an IP-host service gets
no container, and a name-host service gets an `alpine:latest` container
named after it. -/
theorem service_classification (cfg : Config) (s : ServiceConfig)
    (hs : s ∈ cfg.services) :
    ((generateTopology cfg).nodes.filter
        (fun n => n.kind == NodeKind.backendService)
      = cfg.services.filterMap serviceNode)
    ∧ (isIpLiteral (hostOf s.upstream) = true → serviceNode s = none)
    ∧ (isIpLiteral (hostOf s.upstream) = false →
        ∃ n, serviceNode s = some n ∧ n.kind = NodeKind.backendService
          ∧ n.name = s.name ∧ n.image = "alpine:latest"
          ∧ n ∈ (generateTopology cfg).nodes) := by
  refine ⟨?_, ?_, ?_⟩
  · show List.filter _ (_ ++ _ ++ _) = _
    rw [List.filter_append, List.filter_append]
    have h1 : List.filter (fun n => n.kind == NodeKind.backendService)
        ((cfg.proxies.filter (fun p => materializes cfg p)).map
          (expandProxy cfg)).flatten = [] := by
      rw [List.filter_eq_nil_iff]
      intro n hn
      rcases List.mem_flatten.mp hn with ⟨l, hl, hnl⟩
      rcases List.mem_map.mp hl with ⟨p, _, rfl⟩
      rw [kind_of_mem_expandProxy hnl]
      decide
    have h2 : List.filter (fun n => n.kind == NodeKind.backendService)
        (if anubisPresent cfg then [anubisNode cfg] else []) = [] := by
      by_cases hA : anubisPresent cfg = true
      · simp [hA, anubisNode]
      · simp only [Bool.not_eq_true] at hA
        simp [hA]
    have h3 : List.filter (fun n => n.kind == NodeKind.backendService)
        (cfg.services.filterMap serviceNode)
        = cfg.services.filterMap serviceNode := by
      rw [List.filter_eq_self]
      intro n hn
      rw [kind_of_mem_serviceNodes hn]
      rfl
    rw [h1, h2, h3]
    rfl
  · intro h
    simp [serviceNode, h]
  · intro h
    have hnode : serviceNode s = some
        ⟨.backendService, s.name, "alpine:latest", [], 0, [], [],
         "back-net", none⟩ := by
      simp [serviceNode, h]
    exact ⟨_, hnode, rfl, rfl, rfl,
      mem_topologyNodes_iff.mpr (Or.inr (Or.inr
        (List.mem_filterMap.mpr ⟨s, hs, hnode⟩)))⟩

/-- A config with one internal-host service and one literal-IP service. -/
def twoServicesCfg : Config :=
  { project := { name := "acme" }
    proxies := []
    services :=
      [ { name := "db", domain := "db.acme.io", upstream := "http://db-host:5432" },
        { name := "ext", domain := "ext.acme.io", upstream := "http://192.0.2.1:3000" } ] }

/-- Witness for C6 at the internal-host service of `twoServicesCfg`. -/
theorem service_classification_witness :
    ({ name := "db", domain := "db.acme.io",
       upstream := "http://db-host:5432" } : ServiceConfig)
        ∈ twoServicesCfg.services
    ∧ (generateTopology twoServicesCfg).nodes.filter
        (fun n => n.kind == NodeKind.backendService)
      = twoServicesCfg.services.filterMap serviceNode :=
  ⟨by decide,
   (service_classification twoServicesCfg
     { name := "db", domain := "db.acme.io", upstream := "http://db-host:5432" }
     (by decide)).1⟩

/-! ## C8 — validation gates generation -/

/-- If some proxy in the list fails one of the three per-proxy checks, the
proxy-validation loop returns an error, whatever the starting index. -/
theorem validateProxiesFrom_error_of_bad :
    ∀ (ps : List ProxyConfig) (i : Nat),
      (∃ p ∈ ps, trimChars p.name = [] ∨ p.external_port = some 0
        ∨ p.instances = 0) →
      ∃ e, validateProxiesFrom ps i = Except.error e := by
  intro ps
  induction ps with
  | nil =>
    rintro i ⟨p, hp, _⟩
    cases hp
  | cons q rest ih =>
    rintro i ⟨p, hp, hb⟩
    by_cases h1 : trimChars q.name = []
    · exact ⟨"Proxy " ++ toString i ++ " name cannot be empty",
        by simp [validateProxiesFrom, h1]⟩
    by_cases h2 : q.external_port = some 0
    · exact ⟨"Proxy " ++ q.name ++ " external_port must be greater than 0",
        by simp [validateProxiesFrom, h1, h2]⟩
    by_cases h3 : q.instances = 0
    · exact ⟨"Proxy " ++ q.name ++ " instances must be greater than 0",
        by simp [validateProxiesFrom, h1, h2, h3]⟩
    rcases List.mem_cons.mp hp with rfl | hmem
    · rcases hb with hb | hb | hb <;> [exact absurd hb h1;
        exact absurd hb h2; exact absurd hb h3]
    · obtain ⟨e, he⟩ := ih (i + 1) ⟨p, hmem, hb⟩
      exact ⟨e, by simp [validateProxiesFrom, h1, h2, h3, he]⟩

/-- If some service in the list fails one of the three per-service checks,
the service-validation loop returns an error, whatever the index. -/
theorem validateServicesFrom_error_of_bad :
    ∀ (ss : List ServiceConfig) (i : Nat),
      (∃ s ∈ ss, trimChars s.name = [] ∨ trimChars s.domain = []
        ∨ trimChars s.upstream = []) →
      ∃ e, validateServicesFrom ss i = Except.error e := by
  intro ss
  induction ss with
  | nil =>
    rintro i ⟨s, hs, _⟩
    cases hs
  | cons q rest ih =>
    rintro i ⟨s, hs, hb⟩
    by_cases h1 : trimChars q.name = []
    · exact ⟨"Service " ++ toString i ++ " name cannot be empty",
        by simp [validateServicesFrom, h1]⟩
    by_cases h2 : trimChars q.domain = []
    · exact ⟨"Service " ++ q.name ++ " domain cannot be empty",
        by simp [validateServicesFrom, h1, h2]⟩
    by_cases h3 : trimChars q.upstream = []
    · exact ⟨"Service " ++ q.name ++ " upstream cannot be empty",
        by simp [validateServicesFrom, h1, h2, h3]⟩
    rcases List.mem_cons.mp hs with rfl | hmem
    · rcases hb with hb | hb | hb <;> [exact absurd hb h1;
        exact absurd hb h2; exact absurd hb h3]
    · obtain ⟨e, he⟩ := ih (i + 1) ⟨s, hmem, hb⟩
      exact ⟨e, by simp [validateServicesFrom, h1, h2, h3, he]⟩

/-- C8: `Config::load` hands out a config only when `validate` passed, and
`validate` rejects every config with an empty (or whitespace-only)
project name, an empty proxy or service name, a proxy external port equal
to zero, or a proxy instance count equal to zero (plus the empty
service-domain/upstream checks the code performs alongside). -/
theorem load_only_validated (cfg : Config) :
    (∀ cfg2, Config.load cfg = Except.ok cfg2 →
      cfg2 = cfg ∧ cfg.validate = Except.ok ())
    ∧ (trimChars cfg.project.name = [] →
        ∃ e, cfg.validate = Except.error e)
    ∧ (∀ p ∈ cfg.proxies,
        (trimChars p.name = [] ∨ p.external_port = some 0
          ∨ p.instances = 0) →
        ∃ e, cfg.validate = Except.error e)
    ∧ (∀ s ∈ cfg.services,
        (trimChars s.name = [] ∨ trimChars s.domain = []
          ∨ trimChars s.upstream = []) →
        ∃ e, cfg.validate = Except.error e) := by
  refine ⟨?_, ?_, ?_, ?_⟩
  · intro cfg2 h
    unfold Config.load at h
    cases hv : cfg.validate with
    | error e => rw [hv] at h; cases h
    | ok u =>
      cases u
      rw [hv] at h
      injection h with h2
      exact ⟨h2.symm, rfl⟩
  · intro h
    exact ⟨"Project name cannot be empty", by simp [Config.validate, h]⟩
  · intro p hp hb
    by_cases hproj : trimChars cfg.project.name = []
    · exact ⟨"Project name cannot be empty",
        by simp [Config.validate, hproj]⟩
    · obtain ⟨e, he⟩ := validateProxiesFrom_error_of_bad cfg.proxies 0
        ⟨p, hp, hb⟩
      exact ⟨e, by simp [Config.validate, hproj, he]⟩
  · intro s hs hb
    by_cases hproj : trimChars cfg.project.name = []
    · exact ⟨"Project name cannot be empty",
        by simp [Config.validate, hproj]⟩
    · cases hvp : validateProxiesFrom cfg.proxies 0 with
      | error e => exact ⟨e, by simp [Config.validate, hproj, hvp]⟩
      | ok u =>
        cases u
        obtain ⟨e, he⟩ := validateServicesFrom_error_of_bad cfg.services 0
          ⟨s, hs, hb⟩
        exact ⟨e, by simp [Config.validate, hproj, hvp, he]⟩

/-- A config whose only defect is a zero external port on its proxy. -/
def zeroPortCfg : Config :=
  { project := { name := "acme" }
    proxies := [{ name := "edge", proxy_type := .caddy, external_port := some 0 }]
    services := [] }

/-- Witness for C8 at `zeroPortCfg`. -/
theorem load_only_validated_witness :
    ({ name := "edge", proxy_type := .caddy,
       external_port := some 0 } : ProxyConfig) ∈ zeroPortCfg.proxies
    ∧ (∃ e, zeroPortCfg.validate = Except.error e) :=
  ⟨by decide,
   (load_only_validated zeroPortCfg).2.2.1
     { name := "edge", proxy_type := .caddy, external_port := some 0 }
     (by decide) (Or.inr (Or.inl rfl))⟩

end Cerberus
